import Mathlib

/-!
Shallow embedding of the Game Session Engine of `src/src/orchestrator.py`
(repository tonykplogix/guess_human).

The engine is a turn-based state machine: `GameEngine.start` builds a
`GameState` at round 1, `GameEngine.step` applies one transition using the
raw decision payload obtained from the Gemini oracle, and
`GameOrchestrator.process_user_answer` looks a session up in the in-memory
session dictionary, runs `step`, and either re-stores or evicts the session.

Oracle interactions (network calls to `generate_content` and the subsequent
JSON parsing) are modelled by explicit outcome parameters:
  * a call that raises out of `generate_content` (the call sits outside the
    `try` blocks in the source, so such an exception propagates out of
    `step`) is the `raised` constructor of the corresponding `…Call` type;
  * a call that returns is modelled by the parse outcome the source then
    inspects (`parseError` when `json.loads` raises, otherwise the parsed
    payload, with `none` standing for a falsy value such as `{}`).

Python mutates the `GameState` object in place; the embedding is functional,
so every operation returns the resulting state explicitly, and the
exceptional exit of `step` is an `Except.error` paired with the state as
mutated up to the point where the exception was raised.
-/

/-- Status literal of `GameState.status`: `"ongoing" | "ai_won" | "human_won"`. -/
inductive Status where
  | ongoing
  | ai_won
  | human_won
  deriving DecidableEq, Repr

/-- Value found under the `"guess"` key of the decision payload.  The source
checks `isinstance(guess, int)`; Python booleans are instances of `int`
(`False == 0`), so a JSON boolean is modelled as the integer it equals, and
`gStr` covers any non-integer JSON value. -/
inductive GVal where
  | gInt (n : Int)
  | gStr (s : String)
  deriving DecidableEq, Repr

/-- Parsed decision payload as `GuessingAI.decide` returns it: a dict with
optional keys `decision`, `guess`, `reason`. -/
structure DecPayload where
  decision : Option String
  guess : Option GVal
  reason : Option String
  deriving DecidableEq, Repr

/-- Outcome of the JSON-parsing part of `GuessingAI.decide`:
`parseError` when `json.loads` raised (the `except` branch), otherwise the
parsed data, `parsed none` standing for a falsy result such as `{}`. -/
inductive DecideOutcome where
  | parseError
  | parsed (data : Option DecPayload)
  deriving DecidableEq, Repr

/-- Element of the `"answers"` list parsed inside
`QuestionTool.generate_ai_candidates`; the comprehension keeps only
`isinstance(a, str)` items. -/
inductive AVal where
  | aStr (s : String)
  | aOther
  deriving DecidableEq, Repr

/-- Outcome of the JSON-parsing part of `QuestionTool.generate_ai_candidates`:
`parseError` when `json.loads` raised, otherwise `data.get("answers")`
(`none` when missing or falsy). -/
inductive CandRaw where
  | parseError
  | parsed (answers : Option (List AVal))
  deriving DecidableEq, Repr

/-- Outcome of the `generate_content` call made inside `GuessingAI.decide`:
it can raise (propagating out of `GameEngine.step` before any mutation), or
return a response that is then parsed. -/
inductive DecideCall where
  | raised
  | ok (r : DecideOutcome)
  deriving DecidableEq, Repr

/-- Outcome of `QuestionTool.generate_new_question`: the network call can
raise, otherwise the function always returns some string (it has its own
parse fallback), which is all `GameEngine.step` uses. -/
inductive QCall where
  | raised
  | ok (q : String)
  deriving DecidableEq, Repr

/-- Outcome of the `generate_content` call made inside
`QuestionTool.generate_ai_candidates`. -/
inductive CandCall where
  | raised
  | ok (r : CandRaw)
  deriving DecidableEq, Repr

/-- One element of `GameState.history`: the dict appended by
`GameEngine.step` with keys `question, user, ai_candidates, decision, guess,
reason`. -/
structure RoundRecord where
  question : String
  user : String
  ai_candidates : List String
  decision : String
  guess : Option GVal
  reason : Option String
  deriving DecidableEq, Repr

/-- The pydantic `GameState` model of the source. -/
structure GameState where
  game_id : String
  round : Nat
  max_rounds : Nat
  history : List RoundRecord
  current_question : String
  ai_candidates : List String
  status : Status
  deriving DecidableEq, Repr

/-- The dict returned by `GameEngine.step`; keys absent from a given branch
of the source are `none`. -/
structure StepOut where
  decision : String
  guess : Option Int
  question : Option String
  ai_candidates : Option (List String)
  round : Nat
  is_game_over : Bool
  winner : Option String
  reason : Option String
  deriving DecidableEq, Repr

/-- Default of `Settings.max_questions` in `config/settings.py`. -/
def settings_max_questions : Nat := 3

/-- Drop leading whitespace characters from a character list. -/
def dropLeadingWs : List Char → List Char
  | [] => []
  | c :: cs => if c.isWhitespace then dropLeadingWs cs else c :: cs

/-- Python `str.strip()` (no arguments): remove leading and trailing
whitespace. -/
def pyStrip (s : String) : String :=
  ⟨((dropLeadingWs s.data).reverse |> dropLeadingWs).reverse⟩

namespace GuessingAI

/-- Tail of `GuessingAI.decide` after the oracle call returned: the
`try/except` around `json.loads` and the final `return data or
{"decision": "use_tool"}`. -/
def decide (r : DecideOutcome) : DecPayload :=
  match r with
  | .parseError =>
      { decision := some "use_tool", guess := none,
        reason := some "Could not parse; ask another question." }
  | .parsed none => { decision := some "use_tool", guess := none, reason := none }
  | .parsed (some data) => data

end GuessingAI

namespace QuestionTool

/-- The fixed fallback list at the end of `QuestionTool.generate_ai_candidates`. -/
def fallback_answers : List String :=
  [ "I would choose a practical option based on available data.",
    "My response depends on optimizing for clear objectives and constraints.",
    "I would consider trade-offs and select the most consistent approach." ]

/-- Tail of `QuestionTool.generate_ai_candidates` after the oracle call
returned: `answers = data.get("answers") or []`, keep `isinstance(a, str)`
items stripped, return the first three when at least three remain, else the
fixed fallback list; a parse exception also lands on the fallback. -/
def generate_ai_candidates (r : CandRaw) : List String :=
  match r with
  | .parseError => fallback_answers
  | .parsed oanswers =>
      let answers := (oanswers.getD []).filterMap fun a =>
        match a with
        | .aStr s => some (pyStrip s)
        | .aOther => none
      if 3 ≤ answers.length then answers.take 3 else fallback_answers

end QuestionTool

namespace GameEngine

/-- The expression `(decision.get("decision") or "use_tool").strip()` of
`GameEngine.step`: a missing key gives `None`, an empty string is falsy,
both default to `"use_tool"`; otherwise the string is stripped. -/
def reconcileDec (d : Option String) : String :=
  match d with
  | none => "use_tool"
  | some s => if s = "" then "use_tool" else pyStrip s

/-- The dict appended to `state.history` by `GameEngine.step`. -/
def round_record (state : GameState) (user_answer : String) (p : DecPayload) :
    RoundRecord :=
  { question := state.current_question,
    user := user_answer,
    ai_candidates := state.ai_candidates,
    decision := reconcileDec p.decision,
    guess := p.guess,
    reason := p.reason }

/-- Model of `GameEngine.step`.  The three oracle interactions are passed in as
outcome values (`dc` for `GuessingAI.decide`, `qc` for
`generate_new_question`, `cc` for `generate_ai_candidates`).  An
`Except.error ()` result is an exception propagating out of `step`; the
paired state is the session object as mutated in place up to that point. -/
def step (state : GameState) (user_answer : String)
    (dc : DecideCall) (qc : QCall) (cc : CandCall) :
    Except Unit StepOut × GameState :=
  match dc with
  | .raised => (.error (), state)
  | .ok draw =>
      let payload := GuessingAI.decide draw
      let dec := reconcileDec payload.decision
      let guess := payload.guess
      let reason := payload.reason
      let state1 := { state with
        history := state.history ++ [round_record state user_answer payload] }
      if dec = "respond" then
        let winner : String := if guess = some (.gInt 0) then "ai" else "human"
        let state2 := { state1 with
          status := if winner = "ai" then Status.ai_won else Status.human_won }
        (.ok { decision := dec,
               guess := match guess with | some (.gInt n) => some n | _ => none,
               question := none, ai_candidates := none,
               round := state.round, is_game_over := true,
               winner := some winner, reason := reason }, state2)
      else if state.max_rounds ≤ state.round then
        (.ok { decision := dec, guess := none, question := none,
               ai_candidates := none, round := state.round,
               is_game_over := true, winner := some "human",
               reason := reason }, { state1 with status := Status.human_won })
      else
        match qc with
        | .raised => (.error (), state1)
        | .ok new_question =>
            match cc with
            | .raised => (.error (), state1)
            | .ok cr =>
                let cands := QuestionTool.generate_ai_candidates cr
                let state2 := { state1 with
                  round := state.round + 1,
                  current_question := new_question,
                  ai_candidates := cands }
                (.ok { decision := dec, guess := none,
                       question := some new_question,
                       ai_candidates := some cands,
                       round := state.round + 1, is_game_over := false,
                       winner := none, reason := reason }, state2)

/-- Model of `GameEngine.start`, parameterised by the generated id, the question
returned by `generate_initial_question`, and the parse outcome of
`generate_ai_candidates` (a raised oracle call aborts `start` before any
session exists, so it creates no state to model). -/
def start (game_id : String) (first_question : String) (cr : CandRaw) :
    GameState :=
  { game_id := game_id,
    round := 1,
    max_rounds := settings_max_questions,
    history := [],
    current_question := first_question,
    ai_candidates := QuestionTool.generate_ai_candidates cr,
    status := Status.ongoing }

end GameEngine

/-- Faults surfaced by `GameOrchestrator.process_user_answer`: the explicit
`HTTPException(404)` for an unknown session, and any other exception
(turned into a 500 by the route). -/
inductive Fault where
  | sessionNotFound
  | serverError
  deriving DecidableEq, Repr

/-- The in-memory session dictionary `GameOrchestrator._sessions`, modelled
as an association list. -/
abbrev Store := List (String × GameState)

/-- Dictionary lookup `self._sessions.get(game_id)`. -/
def storeGet (store : Store) (id : String) : Option GameState :=
  match store with
  | [] => none
  | (k, v) :: rest => if k = id then some v else storeGet rest id

/-- Key update: the Python engine mutates the stored `GameState` in place,
which the functional embedding renders as replacing the value bound to the
key. -/
def storePut (store : Store) (id : String) (v : GameState) : Store :=
  match store with
  | [] => [(id, v)]
  | (k, w) :: rest => if k = id then (k, v) :: rest else (k, w) :: storePut rest id v

/-- Key removal `self._sessions.pop(game_id, None)`. -/
def storeErase (store : Store) (id : String) : Store :=
  match store with
  | [] => []
  | (k, w) :: rest =>
      if k = id then storeErase rest id else (k, w) :: storeErase rest id

namespace GameOrchestrator

/-- Model of `GameOrchestrator.process_user_answer`: look the session up (404 when
absent), run `GameEngine.step` on it, pop the session when the game is over.
Since Python mutates the session object in place, the state produced by
`step` is visible in the store on every path except the terminal pop,
including the path where `step` raised. -/
def process_user_answer (store : Store) (game_id : String)
    (user_answer : String) (dc : DecideCall) (qc : QCall) (cc : CandCall) :
    Except Fault StepOut × Store :=
  match storeGet store game_id with
  | none => (.error .sessionNotFound, store)
  | some state =>
      match GameEngine.step state user_answer dc qc cc with
      | (.error _, state1) => (.error .serverError, storePut store game_id state1)
      | (.ok out, state1) =>
          if out.is_game_over then (.ok out, storeErase store game_id)
          else (.ok out, storePut store game_id state1)

end GameOrchestrator

/-- States reachable through the engine: a freshly started session, plus
anything `GameEngine.step` can produce from a reachable state, including the
state left behind when `step` raises part-way through. -/
inductive Reach : GameState → Prop where
  | init (id q : String) (cr : CandRaw) : Reach (GameEngine.start id q cr)
  | next (s : GameState) (ua : String) (dc : DecideCall) (qc : QCall)
      (cc : CandCall) : Reach s → Reach (GameEngine.step s ua dc qc cc).2

/-! Concrete fixtures used by the claim theorems, their witnesses and the
counterexamples below. -/

/-- Ongoing session fixture for the respond-decision claim. -/
def c1w_state : GameState :=
  { game_id := "w1", round := 1, max_rounds := 3, history := [],
    current_question := "wq1", ai_candidates := ["x", "y", "z"],
    status := Status.ongoing }

/-- Oracle payload `{"decision": "respond", "guess": 0, "reason": "human-like"}`. -/
def c1w_draw : DecideOutcome :=
  .parsed (some { decision := some "respond", guess := some (.gInt 0),
                  reason := some "human-like" })

/-- Ongoing session with `maxRounds = 1`, on its only round. -/
def c2w_state : GameState :=
  { game_id := "w2", round := 1, max_rounds := 1, history := [],
    current_question := "wq2", ai_candidates := ["x", "y", "z"],
    status := Status.ongoing }

/-- Oracle payload `{"decision": "use_tool"}`. -/
def c2w_draw : DecideOutcome :=
  .parsed (some { decision := some "use_tool", guess := none, reason := none })

/-- The session object left behind when the follow-up-question oracle call
raises out of `GameEngine.step` right after the history append. -/
def c4_bad_state : GameState :=
  (GameEngine.step (GameEngine.start "g4" "q4" CandRaw.parseError) "a4"
    (.ok (.parsed (some { decision := some "use_tool", guess := none, reason := none })))
    QCall.raised (.ok CandRaw.parseError)).2

/-- Ongoing session with `maxRounds = 1` stored under key `id5`. -/
def c5w_state : GameState :=
  { game_id := "w5", round := 1, max_rounds := 1, history := [],
    current_question := "wq5", ai_candidates := ["x", "y", "z"],
    status := Status.ongoing }

/-- Oracle payload `{"decision": "use_tool"}`. -/
def c5w_draw : DecideOutcome :=
  .parsed (some { decision := some "use_tool", guess := none, reason := none })

/-- The terminal outcome `process_user_answer` returns for `c5w_state`. -/
def c5w_out : StepOut :=
  { decision := "use_tool", guess := none, question := none,
    ai_candidates := none, round := 1, is_game_over := true,
    winner := some "human", reason := none }

/-- A full run of `GameEngine.step` in which the decision is `use_tool`, the
round budget is not exhausted, and the follow-up-question oracle call raises. -/
def c6_run : Except Unit StepOut × GameState :=
  GameEngine.step (GameEngine.start "g6" "q6" CandRaw.parseError) "a6"
    (.ok (.parsed (some { decision := some "use_tool", guess := none, reason := none })))
    QCall.raised (.ok CandRaw.parseError)

/-- A session already in the terminal status `ai_won`. -/
def c7_terminal_state : GameState :=
  { game_id := "w7", round := 1, max_rounds := 3, history := [],
    current_question := "wq7", ai_candidates := ["x", "y", "z"],
    status := Status.ai_won }

/-- Oracle payload `{"decision": "use_tool"}`. -/
def c7w_draw : DecideOutcome :=
  .parsed (some { decision := some "use_tool", guess := none, reason := none })

/-- Run of `GameEngine.step` applied to the terminal-status session, with every
oracle call succeeding. -/
def c7_run : Except Unit StepOut × GameState :=
  GameEngine.step c7_terminal_state "a7" (.ok c7w_draw) (.ok "wq8")
    (.ok CandRaw.parseError)

/-- Ongoing session fixture for the reconciliation claim. -/
def c8w_state : GameState :=
  { game_id := "w8", round := 1, max_rounds := 3, history := [],
    current_question := "wq8", ai_candidates := ["b1", "b2", "b3"],
    status := Status.ongoing }

/-- Oracle payload whose `decision` field is the unrecognized string
`"maybe"`. -/
def c8w_draw : DecideOutcome :=
  .parsed (some { decision := some "maybe", guess := none, reason := none })

/-- The outcome `GameEngine.step` returns for `c8w_state` and `c8w_draw`:
the raw string `"maybe"` is echoed in the `decision` field. -/
def c8w_out : StepOut :=
  { decision := "maybe", guess := none, question := some "wq9",
    ai_candidates := some QuestionTool.fallback_answers, round := 2,
    is_game_over := false, winner := none, reason := none }

/-- The session state after that transition. -/
def c8w_state2 : GameState :=
  { game_id := "w8", round := 2, max_rounds := 3,
    history := [{ question := "wq8", user := "a8",
                  ai_candidates := ["b1", "b2", "b3"], decision := "maybe",
                  guess := none, reason := none }],
    current_question := "wq9",
    ai_candidates := QuestionTool.fallback_answers,
    status := Status.ongoing }

/-! Structural lemmas about `GameEngine.step`. -/

/-- A transition never changes `max_rounds`. -/
theorem step_max_rounds (s : GameState) (ua : String) (dc : DecideCall)
    (qc : QCall) (cc : CandCall) :
    ((GameEngine.step s ua dc qc cc).2).max_rounds = s.max_rounds := by
  cases dc with
  | raised => rfl
  | ok draw =>
      simp only [GameEngine.step]
      split
      · rfl
      · split
        · rfl
        · cases qc with
          | raised => rfl
          | ok q =>
              cases cc with
              | raised => rfl
              | ok cr => rfl

/-- Once the decide call has returned, every path of `GameEngine.step` has
already appended exactly one round record, including the paths that later
raise. -/
theorem step_history_ok (s : GameState) (ua : String) (draw : DecideOutcome)
    (qc : QCall) (cc : CandCall) :
    ((GameEngine.step s ua (.ok draw) qc cc).2).history
      = s.history ++ [GameEngine.round_record s ua (GuessingAI.decide draw)] := by
  simp only [GameEngine.step]
  split
  · rfl
  · split
    · rfl
    · cases qc with
      | raised => rfl
      | ok q =>
          cases cc with
          | raised => rfl
          | ok cr => rfl

/-- A transition either leaves `round` unchanged or, when the guard
`round >= max_rounds` of the source failed, increments it by exactly one. -/
theorem step_round_cases (s : GameState) (ua : String) (dc : DecideCall)
    (qc : QCall) (cc : CandCall) :
    ((GameEngine.step s ua dc qc cc).2).round = s.round ∨
      (((GameEngine.step s ua dc qc cc).2).round = s.round + 1 ∧
        s.round < s.max_rounds) := by
  cases dc with
  | raised => exact Or.inl rfl
  | ok draw =>
      simp only [GameEngine.step]
      split
      · exact Or.inl rfl
      · split
        · exact Or.inl rfl
        · next hle =>
            cases qc with
            | raised => exact Or.inl rfl
            | ok q =>
                cases cc with
                | raised => exact Or.inl rfl
                | ok cr => exact Or.inr ⟨rfl, Nat.lt_of_not_le hle⟩

/-- A successful non-terminal transition increments `round` by exactly one. -/
theorem step_continue_round (s : GameState) (ua : String) (dc : DecideCall)
    (qc : QCall) (cc : CandCall) (out : StepOut)
    (h1 : (GameEngine.step s ua dc qc cc).1 = .ok out)
    (h2 : out.is_game_over = false) :
    ((GameEngine.step s ua dc qc cc).2).round = s.round + 1 := by
  cases dc with
  | raised => simp [GameEngine.step] at h1
  | ok draw =>
      by_cases hdec :
        GameEngine.reconcileDec (GuessingAI.decide draw).decision = "respond"
      · simp only [GameEngine.step, if_pos hdec] at h1
        injection h1 with h3
        rw [← h3] at h2
        simp at h2
      · by_cases hle : s.max_rounds ≤ s.round
        · simp only [GameEngine.step, if_neg hdec, if_pos hle] at h1
          injection h1 with h3
          rw [← h3] at h2
          simp at h2
        · cases qc with
          | raised => simp [GameEngine.step, if_neg hdec, if_neg hle] at h1
          | ok q =>
              cases cc with
              | raised => simp [GameEngine.step, if_neg hdec, if_neg hle] at h1
              | ok cr =>
                  simp only [GameEngine.step, if_neg hdec, if_neg hle]

/-- A transition either keeps the candidate set or replaces it with the
output of `generate_ai_candidates`. -/
theorem step_cand_cases (s : GameState) (ua : String) (dc : DecideCall)
    (qc : QCall) (cc : CandCall) :
    ((GameEngine.step s ua dc qc cc).2).ai_candidates = s.ai_candidates ∨
      ∃ cr : CandRaw, ((GameEngine.step s ua dc qc cc).2).ai_candidates
        = QuestionTool.generate_ai_candidates cr := by
  cases dc with
  | raised => exact Or.inl rfl
  | ok draw =>
      simp only [GameEngine.step]
      split
      · exact Or.inl rfl
      · split
        · exact Or.inl rfl
        · cases qc with
          | raised => exact Or.inl rfl
          | ok q =>
              cases cc with
              | raised => exact Or.inl rfl
              | ok cr => exact Or.inr ⟨cr, rfl⟩

/-- Function `generate_ai_candidates` returns exactly three strings on every parse
outcome. -/
theorem gen_cand_length (r : CandRaw) :
    (QuestionTool.generate_ai_candidates r).length = 3 := by
  cases r with
  | parseError => rfl
  | parsed oanswers =>
      simp only [QuestionTool.generate_ai_candidates]
      split
      · next h => simp [List.length_take, Nat.min_eq_left h]
      · rfl

/-- Round bounds hold in every reachable state, even the states left behind
by a transition that raised. -/
theorem reach_round_bounds (s : GameState) (h : Reach s) :
    1 ≤ s.round ∧ s.round ≤ s.max_rounds := by
  induction h with
  | init id q cr => exact ⟨Nat.le_refl 1, (by decide : (1 : Nat) ≤ 3)⟩
  | next s ua dc qc cc hs ih =>
      have hmax := step_max_rounds s ua dc qc cc
      rcases step_round_cases s ua dc qc cc with hr | ⟨hr, hlt⟩
      · rw [hr, hmax]
        exact ih
      · rw [hr, hmax]
        exact ⟨Nat.le_succ_of_le ih.1, hlt⟩

/-- Every reachable state carries exactly three candidate answers. -/
theorem reach_cand_length (s : GameState) (h : Reach s) :
    s.ai_candidates.length = 3 := by
  induction h with
  | init id q cr => exact gen_cand_length cr
  | next s ua dc qc cc hs ih =>
      rcases step_cand_cases s ua dc qc cc with hc | ⟨cr, hc⟩
      · rw [hc]
        exact ih
      · rw [hc]
        exact gen_cand_length cr

/-- Looking an identifier up after erasing it yields nothing. -/
theorem storeGet_storeErase (st : Store) (id : String) :
    storeGet (storeErase st id) id = none := by
  induction st with
  | nil => rfl
  | cons kv rest ih =>
      obtain ⟨k, v⟩ := kv
      by_cases h : k = id
      · simp [storeErase, h, ih]
      · simp [storeErase, storeGet, h, ih]

/-- Claim C1: for an ongoing session, a transition whose reconciled decision
is `respond` terminates the game; the status becomes `ai_won` exactly when
the guess field is the integer 0, and every other guess value (non-zero
integer, missing, or non-integer) yields `human_won`; the outcome is
terminal and carries the winner and the reason. -/
theorem c1_respond_resolves_winner (s : GameState) (ua : String)
    (draw : DecideOutcome) (qc : QCall) (cc : CandCall)
    (hog : s.status = Status.ongoing)
    (hdec : GameEngine.reconcileDec (GuessingAI.decide draw).decision = "respond") :
    ∃ out : StepOut,
      (GameEngine.step s ua (.ok draw) qc cc).1 = .ok out ∧
      out.is_game_over = true ∧
      out.reason = (GuessingAI.decide draw).reason ∧
      (((GameEngine.step s ua (.ok draw) qc cc).2).status = Status.ai_won ↔
        (GuessingAI.decide draw).guess = some (.gInt 0)) ∧
      ((GuessingAI.decide draw).guess = some (.gInt 0) → out.winner = some "ai") ∧
      ((GuessingAI.decide draw).guess ≠ some (.gInt 0) →
        ((GameEngine.step s ua (.ok draw) qc cc).2).status = Status.human_won ∧
        out.winner = some "human") := by
  clear hog
  simp only [GameEngine.step, hdec, if_pos]
  by_cases hg : (GuessingAI.decide draw).guess = some (.gInt 0)
  · simp [hg]
  · simp [hg]

/-- Witness for C1: a concrete ongoing session and a `respond` payload with
guess 0 end the game with status `ai_won`. -/
theorem c1_respond_resolves_winner_witness :
    ((GameEngine.step c1w_state "a1" (.ok c1w_draw) (.ok "nq")
        (.ok CandRaw.parseError)).2).status = Status.ai_won := by
  obtain ⟨out, h1, h2, h3, h4, h5, h6⟩ :=
    c1_respond_resolves_winner c1w_state "a1" c1w_draw (.ok "nq")
      (.ok CandRaw.parseError) rfl (by decide)
  exact h4.mpr rfl

/-- Claim C2: for an ongoing session whose round budget is exhausted
(`round == maxRounds`), a `use_tool` decision sets the status to `human_won`
and returns a terminal outcome with winner `human`. -/
theorem c2_budget_exhaustion (s : GameState) (ua : String)
    (draw : DecideOutcome) (qc : QCall) (cc : CandCall)
    (hog : s.status = Status.ongoing)
    (hdec : GameEngine.reconcileDec (GuessingAI.decide draw).decision = "use_tool")
    (hr : s.round = s.max_rounds) :
    (GameEngine.step s ua (.ok draw) qc cc).1 =
      .ok { decision := "use_tool", guess := none, question := none,
            ai_candidates := none, round := s.round, is_game_over := true,
            winner := some "human",
            reason := (GuessingAI.decide draw).reason } ∧
    ((GameEngine.step s ua (.ok draw) qc cc).2).status = Status.human_won := by
  clear hog
  have hne :
      ¬ (GameEngine.reconcileDec (GuessingAI.decide draw).decision = "respond") := by
    rw [hdec]
    decide
  simp only [GameEngine.step, if_neg hne, if_pos (le_of_eq hr.symm), hdec]
  exact ⟨rfl, rfl⟩

/-- Witness for C2: with `maxRounds = 1`, a single `use_tool` decision on
round 1 ends the game with winner `human`. -/
theorem c2_budget_exhaustion_witness :
    (GameEngine.step c2w_state "a2" (.ok c2w_draw) QCall.raised CandCall.raised).1 =
      .ok { decision := "use_tool", guess := none, question := none,
            ai_candidates := none, round := 1, is_game_over := true,
            winner := some "human", reason := none } ∧
    ((GameEngine.step c2w_state "a2" (.ok c2w_draw) QCall.raised
        CandCall.raised).2).status = Status.human_won :=
  c2_budget_exhaustion c2w_state "a2" c2w_draw QCall.raised CandCall.raised
    rfl (by decide) rfl

/-- Claim C3: in every reachable state `1 ≤ round ≤ maxRounds` holds while
the status is `ongoing`; across any transition `round` is monotonically
non-decreasing, never exceeds `maxRounds`, and increases by exactly 1 on
every successful non-terminal transition. -/
theorem c3_round_invariant (s : GameState) (h : Reach s) :
    (s.status = Status.ongoing → 1 ≤ s.round ∧ s.round ≤ s.max_rounds) ∧
    ∀ (ua : String) (dc : DecideCall) (qc : QCall) (cc : CandCall),
      s.round ≤ ((GameEngine.step s ua dc qc cc).2).round ∧
      ((GameEngine.step s ua dc qc cc).2).round ≤ s.max_rounds ∧
      ∀ out : StepOut, (GameEngine.step s ua dc qc cc).1 = .ok out →
        out.is_game_over = false →
        ((GameEngine.step s ua dc qc cc).2).round = s.round + 1 := by
  have hb := reach_round_bounds s h
  refine ⟨fun _ => hb, fun ua dc qc cc => ?_⟩
  refine ⟨?_, ?_, fun out h1 h2 => step_continue_round s ua dc qc cc out h1 h2⟩
  · rcases step_round_cases s ua dc qc cc with hr | ⟨hr, _⟩
    · rw [hr]
    · rw [hr]
      exact Nat.le_succ _
  · rcases step_round_cases s ua dc qc cc with hr | ⟨hr, hlt⟩
    · rw [hr]
      exact hb.2
    · rw [hr]
      exact hlt

/-- Witness for C3: the round bounds hold on a freshly started session. -/
theorem c3_round_invariant_witness :
    1 ≤ (GameEngine.start "gw" "qw" CandRaw.parseError).round ∧
    (GameEngine.start "gw" "qw" CandRaw.parseError).round ≤
      (GameEngine.start "gw" "qw" CandRaw.parseError).max_rounds :=
  (c3_round_invariant (GameEngine.start "gw" "qw" CandRaw.parseError)
    (Reach.init "gw" "qw" CandRaw.parseError)).1 rfl

/-- Claim C4 (violation exhibited): after a fresh start, a `use_tool` round
in which the follow-up-question oracle call raises leaves the session
`ongoing` with one history record and `round` still 1, so
`len(history) = round`, not `round - 1`: the history-length invariant is
broken by the fault path of `GameEngine.step`. -/
theorem c4_fault_breaks_history_invariant :
    c4_bad_state.status = Status.ongoing ∧
    c4_bad_state.round = 1 ∧
    c4_bad_state.history.length = 1 ∧
    c4_bad_state.history.length ≠ c4_bad_state.round - 1 :=
  ⟨rfl, rfl, rfl, by decide⟩

/-- Claim C5: when `process_user_answer` returns a terminal outcome, the
session has been removed from the store, and any subsequent call with the
same identifier signals `SessionNotFound` and leaves the store unchanged. -/
theorem c5_terminal_eviction (store : Store) (id ua : String)
    (dc : DecideCall) (qc : QCall) (cc : CandCall) (out : StepOut)
    (store2 : Store)
    (h1 : GameOrchestrator.process_user_answer store id ua dc qc cc
      = (.ok out, store2))
    (h2 : out.is_game_over = true) :
    storeGet store2 id = none ∧
    ∀ (ua2 : String) (dc2 : DecideCall) (qc2 : QCall) (cc2 : CandCall),
      GameOrchestrator.process_user_answer store2 id ua2 dc2 qc2 cc2 =
        (.error Fault.sessionNotFound, store2) := by
  cases hget : storeGet store id with
  | none => simp [GameOrchestrator.process_user_answer, hget] at h1
  | some state =>
      cases hstep : GameEngine.step state ua dc qc cc with
      | mk res state1 =>
          cases res with
          | error e =>
              simp [GameOrchestrator.process_user_answer, hget, hstep] at h1
          | ok out1 =>
              simp only [GameOrchestrator.process_user_answer, hget, hstep] at h1
              split at h1
              · rw [Prod.mk.injEq] at h1
                obtain ⟨h3, h4⟩ := h1
                injection h3 with h3
                subst h3
                subst h4
                refine ⟨storeGet_storeErase store id, ?_⟩
                intro ua2 dc2 qc2 cc2
                simp [GameOrchestrator.process_user_answer,
                  storeGet_storeErase store id]
              · rw [Prod.mk.injEq] at h1
                obtain ⟨h3, h4⟩ := h1
                injection h3 with h3
                subst h3
                next hover => exact absurd h2 hover

/-- Witness for C5: a concrete one-session store whose only round ends the
game; afterwards the lookup misses and a retry is rejected without
mutation. -/
theorem c5_terminal_eviction_witness :
    storeGet ([] : Store) "id5" = none ∧
    GameOrchestrator.process_user_answer ([] : Store) "id5" "b5"
        DecideCall.raised QCall.raised CandCall.raised =
      (.error Fault.sessionNotFound, ([] : Store)) := by
  have h := c5_terminal_eviction [("id5", c5w_state)] "id5" "a5"
    (.ok c5w_draw) QCall.raised CandCall.raised c5w_out [] rfl rfl
  exact ⟨h.1, h.2 "b5" DecideCall.raised QCall.raised CandCall.raised⟩

/-- Claim C6 (violation exhibited): when the follow-up-question oracle call
raises after the decide call returned `use_tool`, `GameEngine.step` exits
with the exception while the session keeps the already-appended round
record and the old `round`, `current_question` and `ai_candidates`: the
transition is not all-or-nothing. -/
theorem c6_fault_incomplete_transition :
    c6_run.1 = Except.error () ∧
    c6_run.2.history = [{ question := "q6", user := "a6",
                          ai_candidates := QuestionTool.fallback_answers,
                          decision := "use_tool",
                          guess := none, reason := none }] ∧
    c6_run.2.round = 1 ∧
    c6_run.2.current_question = "q6" ∧
    c6_run.2.ai_candidates = QuestionTool.fallback_answers ∧
    c6_run.2.status = Status.ongoing :=
  ⟨rfl, rfl, rfl, rfl, rfl, rfl⟩

/-- Counterexample to C7 as stated: `GameEngine.step` applied to a session
whose status is the terminal `ai_won` signals no fault at all — it returns
a normal outcome and appends a round record, incrementing `round`. -/
theorem c7_counterexample :
    c7_terminal_state.status ≠ Status.ongoing ∧
    c7_run.1 = Except.ok { decision := "use_tool", guess := none,
                           question := some "wq8",
                           ai_candidates := some QuestionTool.fallback_answers,
                           round := 2, is_game_over := false, winner := none,
                           reason := none } ∧
    c7_run.2.history.length = c7_terminal_state.history.length + 1 ∧
    c7_run.2.round = 2 :=
  ⟨by decide, rfl, rfl, rfl⟩

/-- Claim C7 as amended: the transition operation performs no status check;
invoked on a session that is not `ongoing` it signals no invalid-state
fault and mutates the session anyway, appending exactly the round record it
would append for an ongoing session (protection relies solely on terminal
sessions being evicted from the store). -/
theorem c7_no_status_guard (s : GameState) (ua : String)
    (draw : DecideOutcome) (qc : QCall) (cc : CandCall)
    (h : s.status ≠ Status.ongoing) :
    ((GameEngine.step s ua (.ok draw) qc cc).2).history
      = s.history ++ [GameEngine.round_record s ua (GuessingAI.decide draw)] := by
  clear h
  exact step_history_ok s ua draw qc cc

/-- Witness for the amended C7 at a concrete terminal-status session. -/
theorem c7_no_status_guard_witness :
    c7_run.2.history = c7_terminal_state.history ++
      [GameEngine.round_record c7_terminal_state "a7" (GuessingAI.decide c7w_draw)] :=
  c7_no_status_guard c7_terminal_state "a7" c7w_draw (.ok "wq8")
    (.ok CandRaw.parseError) (by decide)

/-- Counterexample to C8 as stated: a payload whose `decision` field is the
unrecognized string `"maybe"` produces an outcome and a history record whose
`decision` field is `"maybe"` — not one of `respond`/`use_tool`. -/
theorem c8_counterexample :
    (GameEngine.step c8w_state "a8" (.ok c8w_draw) (.ok "wq9")
        (.ok CandRaw.parseError)).1 = Except.ok c8w_out ∧
    c8w_out.decision = "maybe" ∧
    ((GameEngine.step c8w_state "a8" (.ok c8w_draw) (.ok "wq9")
        (.ok CandRaw.parseError)).2).history.map RoundRecord.decision
      = ["maybe"] ∧
    ¬ ("maybe" = "respond" ∨ "maybe" = "use_tool") :=
  ⟨rfl, rfl, rfl, by decide⟩

/-- Claim C8 as amended: reconciliation is total — an unparseable payload
defaults to `use_tool` with the standard could-not-parse reason, and a
missing or falsy `decision` field defaults to `use_tool`; a decision string
other than `respond` follows the `use_tool` control path (terminal with
winner `human` exactly when the budget is exhausted); but the outcome and
the history record carry the stripped raw decision string, which need not
be `respond` or `use_tool`. -/
theorem c8_reconciliation_amended (draw : DecideOutcome) (s : GameState)
    (ua : String) (qc : QCall) (cc : CandCall) (out : StepOut)
    (s1 : GameState)
    (h : GameEngine.step s ua (.ok draw) qc cc = (.ok out, s1)) :
    out.decision = GameEngine.reconcileDec (GuessingAI.decide draw).decision ∧
    (draw = .parseError → out.decision = "use_tool" ∧
      out.reason = some "Could not parse; ask another question.") ∧
    ((GuessingAI.decide draw).decision = none → out.decision = "use_tool") ∧
    (s1.history = s.history ++
        [GameEngine.round_record s ua (GuessingAI.decide draw)] ∧
      (GameEngine.round_record s ua (GuessingAI.decide draw)).decision
        = out.decision) ∧
    (out.decision ≠ "respond" →
      (out.is_game_over = true ↔ s.max_rounds ≤ s.round) ∧
      (out.is_game_over = true → out.winner = some "human" ∧
        s1.status = Status.human_won)) := by
  by_cases hdec :
      GameEngine.reconcileDec (GuessingAI.decide draw).decision = "respond"
  · simp only [GameEngine.step, if_pos hdec] at h
    rw [Prod.mk.injEq] at h
    obtain ⟨h3, h4⟩ := h
    injection h3 with h3
    subst h3
    subst h4
    refine ⟨rfl, ?_, ?_, ⟨rfl, rfl⟩, ?_⟩
    · intro hp
      subst hp
      exact absurd hdec (by decide)
    · intro hnone
      show GameEngine.reconcileDec (GuessingAI.decide draw).decision = "use_tool"
      rw [hnone]
      rfl
    · intro hne
      exact absurd hdec hne
  · by_cases hle : s.max_rounds ≤ s.round
    · simp only [GameEngine.step, if_neg hdec, if_pos hle] at h
      rw [Prod.mk.injEq] at h
      obtain ⟨h3, h4⟩ := h
      injection h3 with h3
      subst h3
      subst h4
      refine ⟨rfl, ?_, ?_, ⟨rfl, rfl⟩, ?_⟩
      · intro hp
        subst hp
        exact ⟨rfl, rfl⟩
      · intro hnone
        show GameEngine.reconcileDec (GuessingAI.decide draw).decision = "use_tool"
        rw [hnone]
        rfl
      · intro hne2
        exact ⟨⟨fun _ => hle, fun _ => rfl⟩, fun _ => ⟨rfl, rfl⟩⟩
    · cases qc with
      | raised => simp [GameEngine.step, if_neg hdec, if_neg hle] at h
      | ok q =>
          cases cc with
          | raised => simp [GameEngine.step, if_neg hdec, if_neg hle] at h
          | ok cr =>
              simp only [GameEngine.step, if_neg hdec, if_neg hle] at h
              rw [Prod.mk.injEq] at h
              obtain ⟨h3, h4⟩ := h
              injection h3 with h3
              subst h3
              subst h4
              refine ⟨rfl, ?_, ?_, ⟨rfl, rfl⟩, ?_⟩
              · intro hp
                subst hp
                exact ⟨rfl, rfl⟩
              · intro hnone
                show GameEngine.reconcileDec (GuessingAI.decide draw).decision
                  = "use_tool"
                rw [hnone]
                rfl
              · intro hne2
                refine ⟨⟨fun hc => by simp at hc, fun hc => absurd hc hle⟩,
                  fun hc => by simp at hc⟩

/-- Witness for the amended C8 at the `"maybe"` payload. -/
theorem c8_reconciliation_amended_witness :
    c8w_out.decision = GameEngine.reconcileDec (GuessingAI.decide c8w_draw).decision ∧
    (c8w_draw = DecideOutcome.parseError → c8w_out.decision = "use_tool" ∧
      c8w_out.reason = some "Could not parse; ask another question.") ∧
    ((GuessingAI.decide c8w_draw).decision = none →
      c8w_out.decision = "use_tool") ∧
    (c8w_state2.history = c8w_state.history ++
        [GameEngine.round_record c8w_state "a8" (GuessingAI.decide c8w_draw)] ∧
      (GameEngine.round_record c8w_state "a8" (GuessingAI.decide c8w_draw)).decision
        = c8w_out.decision) ∧
    (c8w_out.decision ≠ "respond" →
      (c8w_out.is_game_over = true ↔ c8w_state.max_rounds ≤ c8w_state.round) ∧
      (c8w_out.is_game_over = true → c8w_out.winner = some "human" ∧
        c8w_state2.status = Status.human_won)) :=
  c8_reconciliation_amended c8w_draw c8w_state "a8" (.ok "wq9")
    (.ok CandRaw.parseError) c8w_out c8w_state2 rfl

/-- Claim C9: `generate_ai_candidates` returns exactly 3 strings on every
oracle outcome (falling back to the fixed triple on malformed output), and
consequently every reachable session state carries exactly 3 candidate
answers. -/
theorem c9_candidates_length_three :
    (∀ r : CandRaw, (QuestionTool.generate_ai_candidates r).length = 3) ∧
    (∀ s : GameState, Reach s → s.ai_candidates.length = 3) :=
  ⟨gen_cand_length, reach_cand_length⟩

/-- Witness for C9: a one-element answers list falls back to the fixed
triple, and a fresh session carries three candidates. -/
theorem c9_candidates_length_three_witness :
    (QuestionTool.generate_ai_candidates
      (CandRaw.parsed (some [AVal.aStr "only-one"]))).length = 3 ∧
    (GameEngine.start "g9" "q9" CandRaw.parseError).ai_candidates.length = 3 :=
  ⟨c9_candidates_length_three.1 (CandRaw.parsed (some [AVal.aStr "only-one"])),
   c9_candidates_length_three.2 (GameEngine.start "g9" "q9" CandRaw.parseError)
     (Reach.init "g9" "q9" CandRaw.parseError)⟩
